import Mathlib

/-!
Verification of the pysb GPU SSA simulator subsystem
(`pysb/simulator/gpu_ssa.py`, with the argument contracts of
`pysb/simulator/base.py` and the call site in `pysb/simulator/bng_ssa.py`).

The Python source is shallowly embedded: each relevant Python function is
translated into an executable Lean definition operating on lists and
integers.  NumPy `int32` species counts and `float32` parameter values are
modelled as `Int` — no claim below involves arithmetic on the stored
values, only shapes, zero-initialisation and structural content, so the
machine width is irrelevant.  Python-level exceptions (`IndexError`,
`ValueError`, `TypeError`) are modelled with `Except`.  The file follows
Python 2 semantics for `/` on integers (floor division), matching the
`from __future__ import print_function` era of the source.
-/

namespace PysbGpuSsa

/-- A reaction of the generated reaction network, as consumed by
`gpu_ssa.py`: multisets of reactant and product species indices (the
`reactants` / `products` entries of `model.reactions[i]`), plus the
Fortran-code rendering of the symbolic rate (`sympy.fcode(rxn["rate"])`),
which is the string the kernel generator rewrites. -/
structure Reaction where
  reactants : List Nat
  products : List Nat
  rate : String
  deriving Repr, DecidableEq, Inhabited

/-- The inner accumulation of `_lhs` / `_rhs`:
`stoich = 0; for k in <side>: if j == k: stoich += 1`. -/
def countEq (j : Nat) (ks : List Nat) : Int :=
  ks.foldl (fun st k => if j = k then st + 1 else st) 0

/-- `_lhs(model)` of `gpu_ssa.py`: the (reactions × species) matrix of
reactant multiplicities, negated (`left_side * -1`). -/
def lhsMatrix (rxns : List Reaction) (nSpecies : Nat) : List (List Int) :=
  (List.range rxns.length).map fun i =>
    (List.range nSpecies).map fun j =>
      countEq j (rxns.getD i default).reactants * (-1)

/-- `_rhs(model)` of `gpu_ssa.py`: the (reactions × species) matrix of
product multiplicities. -/
def rhsMatrix (rxns : List Reaction) (nSpecies : Nat) : List (List Int) :=
  (List.range rxns.length).map fun i =>
    (List.range nSpecies).map fun j =>
      countEq j (rxns.getD i default).products

/-- Elementwise sum of two matrices (`_rhs(model) + _lhs(model)`). -/
def matAdd (a b : List (List Int)) : List (List Int) :=
  List.zipWith (List.zipWith (· + ·)) a b

/-- Transpose realised by index swap, as NumPy's `.T` view:
entry (j, i) of the result is entry (i, j) of the input. -/
def matTranspose (a : List (List Int)) (rows cols : Nat) : List (List Int) :=
  (List.range cols).map fun j =>
    (List.range rows).map fun i =>
      (a.getD i []).getD j 0

/-- `stoich_matrix = (_rhs(self._model) + _lhs(self._model)).T` from
`_pysb_to_cuda` — shape (species × reactions). -/
def stoichMatrixT (rxns : List Reaction) (nSpecies : Nat) : List (List Int) :=
  matTranspose (matAdd (rhsMatrix rxns nSpecies) (lhsMatrix rxns nSpecies))
    rxns.length nSpecies

lemma countEq_go (j : Nat) (ks : List Nat) (st : Int) :
    ks.foldl (fun st k => if j = k then st + 1 else st) st
      = st + (ks.count j : Int) := by
  induction ks generalizing st with
  | nil => simp
  | cons k ks ih =>
    by_cases h : j = k
    · subst h
      simp [List.foldl, ih, List.count_cons]
      ring
    · have hk : ¬ (k = j) := fun hkj => h hkj.symm
      simp [List.foldl, if_neg h, ih, List.count_cons, hk]

lemma countEq_eq_count (j : Nat) (ks : List Nat) :
    countEq j ks = (ks.count j : Int) := by
  simpa using countEq_go j ks 0

lemma getD_map_range {α : Type} (n : Nat) (f : Nat → α) (j : Nat) (d : α)
    (hj : j < n) : ((List.range n).map f).getD j d = f j := by
  rw [List.getD_eq_getElem?_getD, List.getElem?_map, List.getElem?_range hj]
  rfl

lemma stoichMatrixT_entry (rxns : List Reaction) (nSpecies : Nat)
    (i j : Nat) (hi : i < rxns.length) (hj : j < nSpecies) :
    ((stoichMatrixT rxns nSpecies).getD j []).getD i 0
      = ((rxns.getD i default).products.count j : Int)
        - ((rxns.getD i default).reactants.count j : Int) := by
  unfold stoichMatrixT matTranspose matAdd rhsMatrix lhsMatrix
  rw [getD_map_range _ _ _ _ hj, getD_map_range _ _ _ _ hi]
  rw [List.zipWith_map, List.zipWith_same]
  rw [getD_map_range _ _ _ _ hi]
  rw [List.zipWith_map, List.zipWith_same]
  rw [getD_map_range _ _ _ _ hj]
  rw [countEq_eq_count, countEq_eq_count]
  ring

/-- C1: For every model whose reactions reference species indices within
range, the stoichiometry matrix `(_rhs(model) + _lhs(model)).T` built at
simulator construction satisfies: the entry for species `j` and reaction
`i` equals (count of occurrences of `j` in reaction `i`'s products) minus
(count of occurrences of `j` in reaction `i`'s reactants).  The builder
(`stoichMatrixT`, from `_lhs` / `_rhs` in `gpu_ssa.py`) is a pure Lean
function of the reaction list, mirroring that the Python builder has no
side effects. -/
theorem c1_stoichiometry_entry (rxns : List Reaction) (nSpecies : Nat)
    (i j : Nat) (hi : i < rxns.length) (hj : j < nSpecies) :
    ((stoichMatrixT rxns nSpecies).getD j []).getD i 0
      = ((rxns.getD i default).products.count j : Int)
        - ((rxns.getD i default).reactants.count j : Int) :=
  stoichMatrixT_entry rxns nSpecies i j hi hj

/-- Witness for C1: a one-reaction network `2·s0 → s1` over two species;
the net change of species 0 in reaction 0 is `count₍products₎ − count₍reactants₎
= 0 − 2`. -/
theorem c1_stoichiometry_entry_witness :
    ((stoichMatrixT [⟨[0, 0], [1], "k1"⟩] 2).getD 0 []).getD 0 0
      = ((([⟨[0, 0], [1], "k1"⟩] : List Reaction).getD 0
            default).products.count 0 : Int)
        - ((([⟨[0, 0], [1], "k1"⟩] : List Reaction).getD 0
            default).reactants.count 0 : Int) :=
  c1_stoichiometry_entry [⟨[0, 0], [1], "k1"⟩] 2 0 0 (by decide) (by decide)

/-- The block-count computation shared by `run` (lines 340–343) and
`run_one_step` (lines 292–295):
`blocks = n / threads` if `n % threads == 0` else `n / threads + 1`,
with Python 2 floor division. -/
def computeBlocks (nSim threads : Nat) : Nat :=
  if nSim % threads = 0 then nSim / threads else nSim / threads + 1

/-- `self._total_threads = self._blocks * self._threads` (lines 297 / 345). -/
def computeTotalThreads (nSim threads : Nat) : Nat :=
  computeBlocks nSim threads * threads

/-- C4: for every `n_simulations ≥ 1` and positive requested thread count,
`run` and `run_one_step` compute `block_count = ceil(n_simulations /
thread_count)` (here `(n + t - 1) / t`) and `total_threads = block_count *
thread_count`, so `total_threads ≥ n_simulations` and `total_threads` is a
multiple of `thread_count`. -/
theorem c4_launch_geometry (n t : Nat) (hn : 1 ≤ n) (ht : 0 < t) :
    computeBlocks n t = (n + t - 1) / t
    ∧ computeTotalThreads n t = computeBlocks n t * t
    ∧ n ≤ computeTotalThreads n t
    ∧ t ∣ computeTotalThreads n t := by
  have hts : n + t - 1 = n + (t - 1) := by omega
  have hmod : (t - 1) % t = t - 1 := Nat.mod_eq_of_lt (by omega)
  have hdiv : (t - 1) / t = 0 := Nat.div_eq_of_lt (by omega)
  refine ⟨?_, rfl, ?_, dvd_mul_left t _⟩
  · unfold computeBlocks
    rw [hts, Nat.add_div ht, hmod, hdiv]
    by_cases h : n % t = 0
    · have hc : ¬ t ≤ n % t + (t - 1) := by omega
      simp [h, hc, ht]
    · have hc : t ≤ n % t + (t - 1) := by
        have := Nat.mod_lt n ht
        omega
      simp [h, hc]
  · unfold computeTotalThreads computeBlocks
    by_cases h : n % t = 0
    · rw [if_pos h, Nat.div_mul_cancel (Nat.dvd_of_mod_eq_zero h)]
    · rw [if_neg h]
      have hlt : n % t < t := Nat.mod_lt n ht
      calc n = t * (n / t) + n % t := (Nat.div_add_mod n t).symm
        _ ≤ t * (n / t) + t := by omega
        _ = (n / t + 1) * t := by ring

/-- Witness for C4: 5 trajectories on 32-thread blocks. -/
theorem c4_launch_geometry_witness :
    computeBlocks 5 32 = (5 + 32 - 1) / 32
    ∧ computeTotalThreads 5 32 = computeBlocks 5 32 * 32
    ∧ 5 ≤ computeTotalThreads 5 32
    ∧ 32 ∣ computeTotalThreads 5 32 :=
  c4_launch_geometry 5 32 (by decide) (by decide)

/-- The compilation-relevant fields of a `GPUSimulator`: the `_step_0`
flag (initially `True`, `__init__` line 76) and a count of how many times
`_setup`/`compile_ssa` has executed (for stating "compiles at most once"). -/
structure SimCompileState where
  step0 : Bool
  compileCount : Nat
  deriving Repr, DecidableEq

/-- State of a freshly constructed simulator: `_step_0 = True`, nothing
compiled yet. -/
def initCompileState : SimCompileState := ⟨true, 0⟩

/-- Effect of one `_run` (lines 183–188) or `_run_all` (lines 226–228)
call on the compile state: `if self._step_0: self._setup(params)`, and
`_setup` ends with `self._step_0 = False` (line 421) after invoking the
compiler once. -/
def runCompileStep (s : SimCompileState) : SimCompileState :=
  if s.step0 then ⟨false, s.compileCount + 1⟩ else s

/-- `n` successive `_run`/`_run_all` calls on the same simulator. -/
def runCalls : SimCompileState → Nat → SimCompileState
  | s, 0 => s
  | s, n + 1 => runCalls (runCompileStep s) n

lemma runCalls_after_first (n : Nat) :
    runCalls ⟨false, 1⟩ n = ⟨false, 1⟩ := by
  induction n with
  | zero => rfl
  | succ n ih =>
    show runCalls (runCompileStep ⟨false, 1⟩) n = _
    simpa [runCompileStep] using ih

/-- C7: over any sequence of `n` `_run`/`_run_all` calls on one simulator
instance, kernel compilation executes exactly `min n 1` times (so at most
once, and exactly once as soon as one run happens), and the `_step_0` flag
is `true` afterwards iff no run has happened — it is cleared by the first
run and never reset. -/
theorem c7_compile_at_most_once (n : Nat) :
    (runCalls initCompileState n).compileCount = min n 1
    ∧ (runCalls initCompileState n).step0 = decide (n = 0) := by
  cases n with
  | zero => exact ⟨rfl, rfl⟩
  | succ n =>
    have h : runCalls initCompileState (n + 1) = ⟨false, 1⟩ := by
      show runCalls (runCompileStep initCompileState) n = _
      simpa [runCompileStep, initCompileState] using runCalls_after_first n
    rw [h]
    refine ⟨?_, by simp⟩
    simp [Nat.min_def]

/-! ### String rewriting machinery of `_pysb_to_cuda`

The kernel generator rewrites each rate string with a fixed sequence of
regular-expression substitutions.  The patterns involved —
`(__s\d+)\*\*(\d+)`, `\bNAME\b` for identifiers `NAME`, `_*s(\d+)`,
literal `d0`, `\s`, and `str.replace('pow', 'powf')` — are simple enough
that Python's leftmost, greedy, non-overlapping matching is reproduced
exactly by the scanners below (no backtracking can change the outcome for
these patterns).  Scanners use explicit fuel equal to the input length;
every successful match consumes at least one input character, so the fuel
is never exhausted on the inputs actually used. -/

/-- Maximal run of decimal digits at the head of the input (greedy `\d+`
or `\d*`): returns (digits, rest). -/
def takeDigits : List Char → List Char × List Char
  | [] => ([], [])
  | c :: cs =>
    if c.isDigit then
      let (ds, r) := takeDigits cs
      (c :: ds, r)
    else ([], c :: cs)

/-- Maximal run of underscores at the head of the input (greedy `_*`). -/
def takeUnderscores : List Char → List Char × List Char
  | [] => ([], [])
  | c :: cs =>
    if c = '_' then
      let (us, r) := takeUnderscores cs
      (c :: us, r)
    else ([], c :: cs)

/-- Value of a decimal digit string, as Python `int()` on the digits. -/
def digitsToNat (ds : List Char) : Nat :=
  ds.foldl (fun a c => a * 10 + (c.toNat - '0'.toNat)) 0

/-- Attempt to match the regex `(__s\d+)\*\*(\d+)` at the head of the
input.  On success returns (group 1 = `__s<digits>`, group 2 = exponent
digits, rest of input). -/
def matchPowerTerm : List Char → Option (List Char × List Char × List Char)
  | '_' :: '_' :: 's' :: rest =>
    let (d1, r1) := takeDigits rest
    if d1 = [] then none
    else
      match r1 with
      | '*' :: '*' :: r2 =>
        let (d2, r3) := takeDigits r2
        if d2 = [] then none
        else some ('_' :: '_' :: 's' :: d1, d2, r3)
      | _ => none
  | _ => none

/-- `re.findall("(__s\\d+)\\*\\*(\\d+)", rate)`: leftmost non-overlapping
matches, scanning left to right. -/
def findAllPowerGo : Nat → List Char → List (List Char × List Char)
  | 0, _ => []
  | _ + 1, [] => []
  | fuel + 1, c :: cs =>
    match matchPowerTerm (c :: cs) with
    | some (g1, g2, rest) => (g1, g2) :: findAllPowerGo fuel rest
    | none => findAllPowerGo fuel cs

def findAllPower (s : List Char) : List (List Char × List Char) :=
  findAllPowerGo s.length s

/-- `re.sub("(__s\\d+)\\*\\*(\\d+)", repl, rate)` with a fixed replacement
string: every non-overlapping match is replaced by `repl`. -/
def subAllPowerGo : Nat → List Char → List Char → List Char
  | 0, _, s => s
  | _ + 1, _, [] => []
  | fuel + 1, repl, c :: cs =>
    match matchPowerTerm (c :: cs) with
    | some (_, _, rest) => repl ++ subAllPowerGo fuel repl rest
    | none => c :: subAllPowerGo fuel repl cs

def subAllPower (repl s : List Char) : List Char :=
  subAllPowerGo s.length repl s

/-- The replacement text built in the match loop of `_pysb_to_cuda`
(lines 131–134): `repl = m[0]`, then
`for i in range(1, int(m[1])): repl += "*(%s-%d)" % (m[0], i)`. -/
def buildPowerRepl (g1 g2 : List Char) : List Char :=
  ((List.range (digitsToNat g2)).drop 1).foldl
    (fun repl i =>
      repl ++ ('*' :: '(' :: g1) ++ '-' :: (toString i).data ++ [')'])
    g1

/-- Lines 129–135 of `_pysb_to_cuda`: find all integer-power terms, then
for each match substitute **the whole pattern, globally,** by that match's
expansion (`rate = re.sub(pattern, repl, rate)` inside the loop). -/
def expandPowers (rate : String) : String :=
  let s := rate.data
  let ms := findAllPower s
  String.mk (ms.foldl (fun r m => subAllPower (buildPowerRepl m.1 m.2) r) s)

/-- Match a literal character sequence at the head of the input, returning
the rest on success. -/
def matchLit : List Char → List Char → Option (List Char)
  | [], s => some s
  | _ :: _, [] => none
  | c :: cs, d :: ds => if c = d then matchLit (cs) ds else none

/-- `re.sub(lit, repl, s)` / `str.replace(lit, repl)` for a literal
pattern: replace every non-overlapping occurrence, left to right. -/
def replaceAllLitGo : Nat → List Char → List Char → List Char → List Char
  | 0, _, _, s => s
  | _ + 1, _, _, [] => []
  | fuel + 1, pat, repl, c :: cs =>
    if pat = [] then c :: replaceAllLitGo fuel pat repl cs
    else
      match matchLit pat (c :: cs) with
      | some rest => repl ++ replaceAllLitGo fuel pat repl rest
      | none => c :: replaceAllLitGo fuel pat repl cs

def replaceAllLit (pat repl s : String) : String :=
  String.mk (replaceAllLitGo s.data.length pat.data repl.data s.data)

/-- Python `\w`: a word character for `\b` boundary purposes. -/
def isWordChar (c : Char) : Bool := c.isAlphanum || c = '_'

/-- `re.sub(r'\bNAME\b', repl, s)` for an identifier `NAME` (first and
last characters are word characters): replace every occurrence of `NAME`
not adjacent to a word character.  `prev` is the character immediately
before the current scan position. -/
def subWordGo : Nat → List Char → List Char → Option Char → List Char → List Char
  | 0, _, _, _, s => s
  | _ + 1, _, _, _, [] => []
  | fuel + 1, name, repl, prev, c :: cs =>
    let boundaryBefore := match prev with
      | none => true
      | some p => !isWordChar p
    if boundaryBefore && name ≠ [] then
      match matchLit name (c :: cs) with
      | some rest =>
        let boundaryAfter := match rest with
          | [] => true
          | r :: _ => !isWordChar r
        if boundaryAfter then
          repl ++ subWordGo fuel name repl name.getLast? rest
        else c :: subWordGo fuel name repl (some c) cs
      | none => c :: subWordGo fuel name repl (some c) cs
    else c :: subWordGo fuel name repl (some c) cs

def subWord (name repl s : String) : String :=
  String.mk (subWordGo s.data.length name.data repl.data none s.data)

/-- Attempt to match `_*s(\d+)` at the head of the input (line 137's
species-to-array substitution).  Greedy `_*` never needs backtracking
here: characters given back are underscores, which cannot satisfy the
following literal `s`.  Returns (group-1 value as a number, rest). -/
def matchSpeciesRef : List Char → Option (Nat × List Char) := fun s =>
  let (_, r1) := takeUnderscores s
  match r1 with
  | 's' :: r2 =>
    let (ds, r3) := takeDigits r2
    if ds = [] then none else some (digitsToNat ds, r3)
  | _ => none

/-- `re.sub(r'_*s(\d+)', lambda m: 'y[%s]' % (int(m.group(1))), rate)`
(lines 137–138). -/
def subSpeciesGo : Nat → List Char → List Char
  | 0, s => s
  | _ + 1, [] => []
  | fuel + 1, c :: cs =>
    match matchSpeciesRef (c :: cs) with
    | some (n, rest) =>
      'y' :: '[' :: (toString n).data ++ ']' :: subSpeciesGo fuel rest
    | none => c :: subSpeciesGo fuel cs

def subSpecies (s : String) : String :=
  String.mk (subSpeciesGo s.data.length s.data)

/-- `p.sub('', rate)` with `p = re.compile('\s')` (lines 94 and 144):
delete all whitespace. -/
def stripWhitespaceChars (s : String) : String :=
  String.mk (s.data.filter (fun c => !c.isWhitespace))

/-- C2 (code bug): the claim says every integer-power term `species**p`
(p ≥ 2) is expanded into `species*(species-1)*...*(species-(p-1))`,
including when a rate contains several distinct power terms.  The code
(lines 129–135) does this correctly when the rate has a single power term
(third conjunct), but inside the per-match loop it calls
`re.sub(pattern, repl, rate)` with the *global* pattern, so the first
match's expansion replaces **every** power term: on
`__s0**2*__s1**3`, `__s1**3` is also replaced by `__s0*(__s0-1)` (first
conjunct), not by its own expansion `__s1*(__s1-1)*(__s1-2)` (second
conjunct), breaking the combinatorial-propensity semantics the spec and
the surrounding code clearly intend. -/
theorem c2_power_expansion_at_failing_input :
    expandPowers "__s0**2*__s1**3" = "__s0*(__s0-1)*__s0*(__s0-1)"
    ∧ expandPowers "__s0**2*__s1**3" ≠ "__s0*(__s0-1)*__s1*(__s1-1)*(__s1-2)"
    ∧ expandPowers "k1*__s0**3" = "k1*__s0*(__s0-1)*(__s0-2)" := by
  refine ⟨by decide, by decide, by decide⟩

/-! ### The full kernel-source generator `_pysb_to_cuda` (lines 90–154) -/

/-- A model observable as used by `_pysb_to_cuda`: name, species indices
and integer coefficients. -/
structure Observable where
  name : String
  species : List Nat
  coefficients : List Int
  deriving Repr, DecidableEq

/-- The slice of a pysb model that `_pysb_to_cuda` reads: ordered
parameter names, the number of generated species
(`len(self._model.species)`), the generated reactions, the observables,
and the named expressions (stored with the C rendering of their expansion,
`sympy.ccode(e.expand_expr())`). -/
structure PModel where
  parameters : List String
  speciesCount : Nat
  reactions : List Reaction
  observables : List Observable
  expressions : List (String × String)
  deriving Repr, DecidableEq

/-- The `obs_string` built for one observable (lines 118–126):
terms `[coeff*]__s<idx>` joined with `+`, coefficient shown only when
greater than 1, the whole sum parenthesised when there is more than one
term. -/
def obsString (obs : Observable) : String :=
  let core := String.join ((List.range obs.coefficients.length).map fun i =>
    (if i > 0 then "+" else "")
      ++ (if obs.coefficients.getD i 0 > 1 then
            toString (obs.coefficients.getD i 0) ++ "*"
          else "")
      ++ "__s" ++ toString (obs.species.getD i 0))
  if obs.coefficients.length > 1 then "(" ++ core ++ ")" else core

/-- The rewriting pipeline applied to one reaction's Fortran-coded rate
(lines 112–145), in source order: inline expressions, substitute
observables, expand integer powers, map species to `y[...]` reads, map
parameters to `tex2D` lookups, drop Fortran `d0` suffixes, strip
whitespace, and rename `pow` to `powf`. -/
def cudaRate (m : PModel) (rate : String) : String :=
  let r1 := m.expressions.foldl
    (fun r e => subWord e.1 ("(" ++ e.2 ++ ")") r) rate
  let r2 := m.observables.foldl
    (fun r o => subWord o.name (obsString o) r) r1
  let r3 := expandPowers r2
  let r4 := subSpecies r3
  let r5 := m.parameters.enum.foldl
    (fun r qp =>
      subWord qp.2 ("tex2D(param_tex," ++ toString qp.1 ++ ",tid)") r) r4
  let r6 := replaceAllLit "d0" "" r5
  let r7 := stripWhitespaceChars r6
  replaceAllLit "pow" "powf" r7

/-- The `hazards_string` accumulation (lines 109–146):
one line `\th[n] = <rewritten rate>;\n` per reaction. -/
def hazardsString (m : PModel) : String :=
  String.join (m.reactions.enum.map fun nr =>
    "\th[" ++ toString nr.1 ++ "] = " ++ cudaRate m nr.2.rate ++ ";\n")

/-- The `stoich_string` accumulation (lines 100–107).  `i` ranges over
`len(stoich_matrix[0])` (reactions) and `j` over `len(stoich_matrix)`
(species); the condition guarding the trailing comma compares `i` against
`len(stoich_matrix) - 1` and `j` against `len(stoich_matrix[0]) - 1` —
the source swaps the two dimensions there, and the swap is reproduced
verbatim. -/
def stoichString (m : PModel) : String :=
  let sm := stoichMatrixT m.reactions m.speciesCount
  let nSp := sm.length
  let nRx := (sm.getD 0 []).length
  String.join ((List.range nRx).map fun i =>
    String.join ((List.range nSp).map fun j =>
      "\t" ++ toString ((sm.getD j []).getD i 0)
        ++ (if i = nSp - 1 ∧ j = nRx - 1 then "" else ","))
      ++ "\n")

/-- `template_code.format(n_species=..., n_params=..., n_reactions=...,
hazards=..., stoch=...)` (lines 148–152), modelled as replacing the five
named placeholder fields in the template text.  (The substituted values
contain no brace characters, so sequential replacement agrees with
Python's one-pass field substitution.) -/
def formatTemplate (template : String) (fields : List (String × String)) : String :=
  fields.foldl
    (fun acc kv => replaceAllLit ("\x7b" ++ kv.1 ++ "\x7d") kv.2 acc)
    template

/-- `_pysb_to_cuda` (lines 90–154).  The template text is the content of
`pycuda_templates/gillespie_template.cu` read by `_load_template`; the
file is a fixed on-disk artifact, passed here as an explicit argument. -/
def pysbToCuda (m : PModel) (template : String) : String :=
  formatTemplate template
    [("n_species", toString m.speciesCount),
     ("n_params", toString m.parameters.length),
     ("n_reactions", toString m.reactions.length),
     ("hazards", hazardsString m),
     ("stoch", stoichString m)]

/-- C6: kernel-source generation is deterministic — for a fixed model
(and the fixed on-disk template `_load_template` reads), any two calls of
`_pysb_to_cuda` produce byte-identical kernel source strings.  The
embedded generator is a pure function with no other inputs: the source
reads only the model tables (in their stored list order) and the template
file, uses no randomness, clock, or mutable global state. -/
theorem c6_kernel_source_deterministic (m₁ m₂ : PModel) (t₁ t₂ : String)
    (hm : m₁ = m₂) (ht : t₁ = t₂) :
    pysbToCuda m₁ t₁ = pysbToCuda m₂ t₂ := by
  subst hm; subst ht; rfl

/-- A small concrete model exercising the generator: two species, one
parameter, one reaction `s0 → s1` with rate `k1*__s0`, one observable. -/
def demoModel : PModel :=
  { parameters := ["k1"]
    speciesCount := 2
    reactions := [⟨[0], [1], "k1*__s0"⟩]
    observables := [⟨"A_total", [0, 1], [1, 1]⟩]
    expressions := [] }

/-- A stand-in template text with the five placeholder fields. -/
def demoTemplate : String :=
  "N=\x7bn_species\x7d P=\x7bn_params\x7d R=\x7bn_reactions\x7d\n"
    ++ "S:\n\x7bstoch\x7dH:\n\x7bhazards\x7d"

/-- Witness for C6: two generation calls on the demo model and template
yield the same source string. -/
theorem c6_kernel_source_deterministic_witness :
    pysbToCuda demoModel demoTemplate = pysbToCuda demoModel demoTemplate :=
  c6_kernel_source_deterministic demoModel demoModel demoTemplate
    demoTemplate rfl rfl

/-! ### Argument binding at the `SimulationResult` call sites (C3) -/

/-- Python argument binding for a function whose (non-`self`) parameter
list has no defaults, `*args` or `**kwargs`: `posArgs` positional
arguments and keyword arguments named `kwArgs` either bind every
parameter exactly once or the call raises `TypeError`. -/
def bindCall (params : List String) (posArgs : Nat) (kwArgs : List String) :
    Except String Unit :=
  if params.length < posArgs then
    .error "TypeError: too many positional arguments"
  else if kwArgs.any (fun k => !(params.contains k)) then
    .error "TypeError: unexpected keyword argument"
  else if kwArgs.any (fun k => (params.take posArgs).contains k) then
    .error "TypeError: multiple values for argument"
  else if (params.drop posArgs).any (fun p => !(kwArgs.contains p)) then
    .error "TypeError: missing required argument"
  else .ok ()

/-- The parameters of `SimulationResult.__init__` after `self`
(`base.py` line 210): `simulator` and `trajectories`. -/
def simulationResultInitParams : List String := ["simulator", "trajectories"]

/-- C3: `SimulationResult.__init__` accepts exactly two arguments, so the
well-formed call binds (first conjunct), while the result-assembly calls
`SimulationResult(self, tout, trajectories)` in `GPUSimulator.run` (line
373) and `run_one_step` (line 304) pass three positional arguments and
raise `TypeError` (second conjunct), and the `bng_ssa.py` line 112 call
`SimulationResult(self, tout=tout, trajectories=yout)` passes the
unsupported keyword `tout` and raises `TypeError` as well (third
conjunct).  Hence every run that reaches result assembly raises instead
of returning a result. -/
theorem c3_simulation_result_call_type_error :
    (bindCall simulationResultInitParams 2 []).isOk = true
    ∧ (bindCall simulationResultInitParams 3 []).isOk = false
    ∧ (bindCall simulationResultInitParams 1 ["tout", "trajectories"]).isOk
        = false := by
  refine ⟨rfl, rfl, rfl⟩

/-! ### Device selection from `CUDA_DEVICE` (C10) -/

/-- Python `int(s)` on a base-10 string: optional surrounding whitespace,
optional sign, then at least one digit; `none` models `ValueError`. -/
def pythonInt (s : String) : Option Int :=
  match (s.data.dropWhile Char.isWhitespace).reverse.dropWhile
      Char.isWhitespace |>.reverse with
  | '-' :: ds =>
    if ds ≠ [] ∧ ds.all Char.isDigit then some (-(digitsToNat ds : Int))
    else none
  | '+' :: ds =>
    if ds ≠ [] ∧ ds.all Char.isDigit then some (digitsToNat ds : Int)
    else none
  | ds =>
    if ds ≠ [] ∧ ds.all Char.isDigit then some (digitsToNat ds : Int)
    else none

/-- `__init__` lines 84–88:
`device = os.getenv("CUDA_DEVICE")`; absent ⇒ `self._device = 0`,
otherwise `self._device = int(device)`. -/
def deviceFromEnv (env : Option String) : Option Int :=
  match env with
  | none => some 0
  | some s => pythonInt s

/-- C10: if `CUDA_DEVICE` is absent the targeted device index is 0; if
present (with an integer value, else `int()` raises), the targeted index
is that integer.  The actual hardware binding is performed by the
`pycuda.autoinit` context created at import, which consults the same
variable; within this module `self._device` is the stored target. -/
theorem c10_device_selection (env : Option String) :
    (env = none → deviceFromEnv env = some 0)
    ∧ (∀ s v, env = some s → pythonInt s = some v →
        deviceFromEnv env = some v) := by
  refine ⟨fun h => by rw [h]; rfl, fun s v hs hv => by rw [hs]; exact hv⟩

/-- Witness for C10: `CUDA_DEVICE` unset targets device 0;
`CUDA_DEVICE=3` targets device 3. -/
theorem c10_device_selection_witness :
    deviceFromEnv none = some 0 ∧ deviceFromEnv (some "3") = some 3 :=
  ⟨(c10_device_selection none).1 rfl,
   (c10_device_selection (some "3")).2 "3" 3 rfl (by decide)⟩

/-! ### Host-side buffers (C5, C8)

`_setup` (lines 407–421) and `_create_gpu_init` (lines 423–435) both
allocate a zero matrix sized to `total_threads` and copy the caller's
per-trajectory rows into its head with a nested
`for i in range(len(src)): for j in range(width): dst[i][j] = src[i][j]`
loop.  In `_setup` the loop is wrapped in `try: ... except IndexError:
pass`; in `_create_gpu_init` an `IndexError` escapes.  The loop is
modelled with `Except`: the error payload carries the buffer contents at
the moment the exception fires (already-written cells persist). -/

/-- `np.zeros((rows, cols))` over the modelled integer cell type. -/
def zerosMatrix (rows cols : Nat) : List (List Int) :=
  List.replicate rows (List.replicate cols 0)

/-- Inner copy loop `for j in range(width): dst_row[j] = src_row[j]`.
The first argument counts the remaining iterations (`width - j`), so the
recursion is structural; reading `src_row[j]` past the end raises
`IndexError`, whose payload is the partially written row. -/
def fillRowGo : Nat → List Int → List Int → Nat → Except (List Int) (List Int)
  | 0, row, _, _ => .ok row
  | fj + 1, row, src, j =>
    match src.get? j with
    | some v => fillRowGo fj (row.set j v) src (j + 1)
    | none => .error row

def fillRow (row src : List Int) (w : Nat) : Except (List Int) (List Int) :=
  fillRowGo w row src 0

/-- Outer copy loop `for i in range(len(src))`, again with the remaining
iteration count (`len(src) - i`) as structural fuel.  Accessing a
destination row past `total_threads` likewise raises `IndexError`; the
error payload is the buffer at that moment. -/
def fillMatrixGo : Nat → List (List Int) → List (List Int) → Nat → Nat →
    Except (List (List Int)) (List (List Int))
  | 0, m, _, _, _ => .ok m
  | fi + 1, m, src, i, w =>
    if i < m.length then
      match fillRow (m.getD i []) (src.getD i []) w with
      | .ok row => fillMatrixGo fi (m.set i row) src (i + 1) w
      | .error row => .error (m.set i row)
    else .error m

def fillMatrix (m src : List (List Int)) (w : Nat) :
    Except (List (List Int)) (List (List Int)) :=
  fillMatrixGo src.length m src 0 w

/-- The buffer contents regardless of whether the copy loop completed or
stopped at an `IndexError`. -/
def exceptBuffer : Except (List (List Int)) (List (List Int)) →
    List (List Int)
  | .ok m => m
  | .error m => m

/-- `_create_gpu_init(initials)`: zero species matrix of shape
`(total_threads, n_species)` populated from the initials rows; an
`IndexError` propagates (no handler). -/
def createGpuInit (initials : List (List Int)) (totalThreads nSpecies : Nat) :
    Except (List (List Int)) (List (List Int)) :=
  fillMatrix (zerosMatrix totalThreads nSpecies) initials nSpecies

/-- The parameter buffer `_setup` builds: zero matrix of shape
`(total_threads, parameter_number)` populated from the per-trajectory
parameter rows, population stopping silently at the first `IndexError`
(`except IndexError: pass`, lines 415–416). -/
def setupParamMatrix (params : List (List Int)) (totalThreads nParams : Nat) :
    List (List Int) :=
  exceptBuffer (fillMatrix (zerosMatrix totalThreads nParams) params nParams)

/-- The outcome of `_setup`'s population phase as the caller observes it:
the `try/except IndexError: pass` converts the failing branch into normal
completion, so no error ever escapes. -/
def setupOutcome (params : List (List Int)) (totalThreads nParams : Nat) :
    Except String (List (List Int)) :=
  match fillMatrix (zerosMatrix totalThreads nParams) params nParams with
  | .ok m => .ok m
  | .error m => .ok m

/-- `result[:n_simulations, :]` (line 219) and
`result[:n_simulations, :, :]` (line 257): the rows of the device result
buffer that `_run` / `_run_all` return. -/
def runReturnRows (deviceResult : List (List Int)) (nSim : Nat) :
    List (List Int) :=
  deviceResult.take nSim

lemma getD_replicate {α : Type} (n : Nat) (a d : α) (j : Nat) (hj : j < n) :
    (List.replicate n a).getD j d = a := by
  rw [List.getD_eq_getElem?_getD, List.getElem?_replicate, if_pos hj]
  rfl

lemma getD_set_ne {l : List (List Int)} {i j : Nat} (row : List Int)
    (h : i ≠ j) : (l.set i row).getD j [] = l.getD j [] := by
  rw [List.getD_eq_getElem?_getD, List.getD_eq_getElem?_getD,
    List.getElem?_set_ne h]

/-- Rows at or past `len(src)` are never written by the copy loop,
whether it completes or stops at an `IndexError`. -/
lemma fillMatrixGo_untouched (src : List (List Int)) (w : Nat) :
    ∀ fuel i m j, i + fuel ≤ src.length → src.length ≤ j →
      (exceptBuffer (fillMatrixGo fuel m src i w)).getD j []
        = m.getD j [] := by
  intro fuel
  induction fuel with
  | zero =>
    intro i m j hfuel hj
    rfl
  | succ fuel ih =>
    intro i m j hfuel hj
    have hij : i ≠ j := by omega
    rw [fillMatrixGo]
    by_cases hm : i < m.length
    · rw [if_pos hm]
      cases hfr : fillRow (m.getD i []) (src.getD i []) w with
      | ok row =>
        have h2 := ih (i + 1) (m.set i row) j (by omega) hj
        rw [getD_set_ne row hij] at h2
        exact h2
      | error row =>
        show (m.set i row).getD j [] = m.getD j []
        exact getD_set_ne row hij
    · rw [if_neg hm]
      rfl

/-- C5: rows `[n_simulations, total_threads)` of the host-side species
and parameter buffers are zero-filled at setup/population time (the copy
loops never write past row `len(src) - 1`, so those rows keep their
`np.zeros` value), and the arrays `_run` / `_run_all` return are exactly
the first `n_simulations` rows of the device result buffer: the returned
slice has length `n_simulations` and row `k` of the slice is row `k` of
the device buffer, so padding rows never appear in any returned result. -/
theorem c5_padding_rows_and_result_slice
    (initials params deviceRes : List (List Int))
    (totalThreads nSpecies nParams nSim j k : Nat)
    (hres : deviceRes.length = totalThreads)
    (hsim : nSim ≤ totalThreads)
    (hji : initials.length ≤ j) (hjp : params.length ≤ j)
    (hjt : j < totalThreads) (hk : k < nSim) :
    (exceptBuffer (createGpuInit initials totalThreads nSpecies)).getD j []
        = List.replicate nSpecies 0
    ∧ (setupParamMatrix params totalThreads nParams).getD j []
        = List.replicate nParams 0
    ∧ (runReturnRows deviceRes nSim).length = nSim
    ∧ (runReturnRows deviceRes nSim).getD k [] = deviceRes.getD k [] := by
  refine ⟨?_, ?_, ?_, ?_⟩
  · rw [createGpuInit, fillMatrix,
      fillMatrixGo_untouched initials nSpecies initials.length 0 _ j
        (by omega) hji]
    rw [zerosMatrix, getD_replicate _ _ _ _ hjt]
  · rw [setupParamMatrix, fillMatrix,
      fillMatrixGo_untouched params nParams params.length 0 _ j
        (by omega) hjp]
    rw [zerosMatrix, getD_replicate _ _ _ _ hjt]
  · rw [runReturnRows, List.length_take]
    omega
  · rw [runReturnRows, List.getD_eq_getElem?_getD, List.getD_eq_getElem?_getD,
      List.getElem?_take, if_pos hk]

/-- Witness for C5: two trajectories padded to four threads; row 2 of
both buffers is zero, and the returned slice is rows 0–1 of the device
buffer. -/
theorem c5_padding_rows_and_result_slice_witness :
    (exceptBuffer (createGpuInit [[5, 6], [7, 8]] 4 2)).getD 2 []
        = List.replicate 2 0
    ∧ (setupParamMatrix [[9], [10]] 4 1).getD 2 [] = List.replicate 1 0
    ∧ (runReturnRows [[1, 2], [3, 4], [0, 0], [0, 0]] 2).length = 2
    ∧ (runReturnRows [[1, 2], [3, 4], [0, 0], [0, 0]] 2).getD 1 []
        = ([[1, 2], [3, 4], [0, 0], [0, 0]] : List (List Int)).getD 1 [] :=
  c5_padding_rows_and_result_slice [[5, 6], [7, 8]] [[9], [10]]
    [[1, 2], [3, 4], [0, 0], [0, 0]] 4 2 1 2 2 1
    (by decide) (by decide) (by decide) (by decide) (by decide) (by decide)

/-! ### Configuration-error reporting (C8) -/

/-- The argument forms `param_values` accepts (`base.py` lines 175–194):
`None`, a name-keyed dictionary, or a vector of per-parameter values. -/
inductive ParamsArg where
  | noneArg : ParamsArg
  | dictArg : List (String × Int) → ParamsArg
  | vecArg : List Int → ParamsArg
  deriving Repr, DecidableEq

/-- The `param_values` setter: a dictionary with a key not among the
model's parameter names raises `IndexError`; a vector whose length is not
`len(model.parameters)` raises `ValueError`; otherwise the value is
stored. -/
def paramValuesSetter (modelParams : List String) (arg : ParamsArg) :
    Except String (Option ParamsArg) :=
  match arg with
  | .noneArg => .ok none
  | .dictArg es =>
    if es.any (fun kv => !(modelParams.contains kv.1)) then
      .error "IndexError: new_params dictionary has unknown parameter name"
    else .ok (some (.dictArg es))
  | .vecArg v =>
    if v.length ≠ modelParams.length then
      .error "ValueError: new_params must be the same length as model.parameters"
    else .ok (some (.vecArg v))

/-- The vector branch of the `initials` setter (`base.py` lines 104–109):
a vector whose length is not `len(model.species)` raises `ValueError`. -/
def initialsSetterVec (nSpecies : Nat) (v : List Int) :
    Except String (List Int) :=
  if v.length ≠ nSpecies then
    .error "ValueError: new_initials must be the same length as model.species"
  else .ok v

/-- Whether the per-trajectory parameter rows are malformed for a buffer
of shape `(totalThreads, nParams)`: more rows than threads, or some row
shorter than the parameter count — exactly the situations in which the
population loop in `_setup` hits an `IndexError`. -/
def paramShapeMalformed (params : List (List Int)) (totalThreads nParams : Nat) :
    Bool :=
  totalThreads < params.length
    || params.any (fun row => row.length < nParams)

/-- C8 counterexample: the claim says malformed per-trajectory parameter
shapes encountered while populating the GPU parameter buffer are reported
immediately rather than silently ignored.  At the concrete input
`params = [[1]]` with `total_threads = 4`, `n_params = 2` the row is too
short: the population loop does raise an `IndexError` internally (second
conjunct), but `_setup`'s `except IndexError: pass` (lines 415–416)
swallows it and `_setup` completes normally (third conjunct) — the
malformed shape is silently ignored, refuting the claim as stated. -/
theorem c8_malformed_params_silently_ignored_counterexample :
    paramShapeMalformed [[1]] 4 2 = true
    ∧ (fillMatrix (zerosMatrix 4 2) [[1]] 2).isOk = false
    ∧ (setupOutcome [[1]] 4 2).isOk = true := by
  refine ⟨by decide, by decide, by decide⟩

/-- C8 (amended): assigning `param_values` or `initials` a vector whose
length differs from the model's parameter/species count raises
immediately, and assigning a dict with an unknown parameter name raises
immediately; but malformed per-trajectory parameter shapes encountered
while populating the GPU parameter buffer are silently ignored —
`_setup` catches the `IndexError` with `pass` and always completes, so
no such error is ever reported. -/
theorem c8_configuration_error_reporting (modelParams : List String)
    (nSpecies : Nat) (v w : List Int) (entries : List (String × Int))
    (kv : String × Int) (params : List (List Int)) (totalThreads nParams : Nat)
    (hv : v.length ≠ modelParams.length)
    (hw : w.length ≠ nSpecies)
    (hke : kv ∈ entries) (hku : modelParams.contains kv.1 = false) :
    (paramValuesSetter modelParams (.vecArg v)).isOk = false
    ∧ (initialsSetterVec nSpecies w).isOk = false
    ∧ (paramValuesSetter modelParams (.dictArg entries)).isOk = false
    ∧ (setupOutcome params totalThreads nParams).isOk = true := by
  refine ⟨?_, ?_, ?_, ?_⟩
  · rw [paramValuesSetter, if_pos hv]
    rfl
  · rw [initialsSetterVec, if_pos hw]
    rfl
  · have hany : entries.any (fun kv => !(modelParams.contains kv.1)) = true :=
      List.any_eq_true.mpr ⟨kv, hke, by rw [hku]; rfl⟩
    rw [paramValuesSetter, if_pos hany]
    rfl
  · rw [setupOutcome]
    cases fillMatrix (zerosMatrix totalThreads nParams) params nParams with
    | ok m => rfl
    | error m => rfl

/-- Witness for the amended C8: concrete wrong-length vectors, a
dictionary with the unknown key `"bad"`, and a malformed parameter row
that `_setup` silently accepts. -/
theorem c8_configuration_error_reporting_witness :
    (paramValuesSetter ["k1"] (.vecArg [1, 2])).isOk = false
    ∧ (initialsSetterVec 2 [1]).isOk = false
    ∧ (paramValuesSetter ["k1"] (.dictArg [("bad", 3)])).isOk = false
    ∧ (setupOutcome [[1]] 4 2).isOk = true :=
  c8_configuration_error_reporting ["k1"] 2 [1, 2] [1] [("bad", 3)]
    ("bad", 3) [[1]] 4 2 (by decide) (by decide) (by decide) (by decide)

/-! ### The SSA kernels (C9)

Modelled from the spec: the CUDA kernel source
(`pycuda_templates/gillespie_template.cu`, read by `_load_template`) is
not under `src/` — only its two entry points `Gillespie_one_step` and
`Gillespie_all_steps` are named by the Python driver.  Spec §4.2 states
that both kernels implement the same standard SSA step (propensities from
current state and per-thread parameters, total hazard, two uniform draws
giving the waiting time and the reaction choice by cumulative-hazard
scan, quiescence on zero total hazard), the single-step kernel advancing
one trajectory from a start time to an end time emitting only the final
state, and the all-steps kernel recording state at every entry of the
time grid.  Times, hazards and the random stream are modelled over `ℚ`;
the exponential transform of a uniform draw is an abstract function
`tau` of the draw and the total hazard, shared by both kernels. -/

/-- Modelled from the spec: the reaction-network data a compiled kernel
closes over — reaction count, per-reaction hazard as a function of the
species state, the stoichiometric update of firing a reaction, and the
waiting-time transform of a uniform draw at a given total hazard. -/
structure KernelModel where
  nReactions : Nat
  hazard : Nat → List Int → ℚ
  applyStoich : Nat → List Int → List Int
  tau : ℚ → ℚ → ℚ

/-- Modelled from the spec: total hazard = sum of all reaction
propensities at the current state. -/
def totalHazard (km : KernelModel) (y : List Int) : ℚ :=
  ((List.range km.nReactions).map (fun r => km.hazard r y)).sum

/-- Modelled from the spec: cumulative-hazard scan — the chosen reaction
is the first index whose running hazard sum exceeds the scaled uniform
draw; ties resolved by first index. -/
def selectReactionGo (hz : Nat → ℚ) : Nat → Nat → ℚ → ℚ → Nat
  | 0, r, _, _ => r
  | n + 1, r, acc, target =>
    let acc2 := acc + hz r
    if target < acc2 then r else selectReactionGo hz n (r + 1) acc2 target

def selectReaction (km : KernelModel) (y : List Int) (target : ℚ) : Nat :=
  selectReactionGo (fun r => km.hazard r y) km.nReactions 0 0 target

/-- Modelled from the spec: one trajectory's SSA loop from time `t` to
`tEnd` — while `t < tEnd`, compute the total hazard; a quiescent
trajectory (zero total hazard) jumps to the end time with state
unchanged; otherwise consume two uniform draws, compute the waiting time
and the fired reaction, apply the stoichiometric update and advance the
thread-local clock, stopping (with the pre-event state) once the next
event would pass `tEnd`.  `fuel` bounds the number of SSA steps; the
returned triple is (state, clock, remaining random stream). -/
def ssaAdvance (km : KernelModel) :
    Nat → List ℚ → List Int → ℚ → ℚ → List Int × ℚ × List ℚ
  | 0, rng, y, t, _ => (y, t, rng)
  | fuel + 1, rng, y, t, tEnd =>
    if t < tEnd then
      let h0 := totalHazard km y
      if h0 = 0 then (y, tEnd, rng)
      else
        match rng with
        | u1 :: u2 :: rng2 =>
          let dt := km.tau u1 h0
          let r := selectReaction km y (u2 * h0)
          let y2 := km.applyStoich r y
          if t + dt < tEnd then ssaAdvance km fuel rng2 y2 (t + dt) tEnd
          else (y, tEnd, rng2)
        | _ => (y, t, rng)
    else (y, t, rng)

/-- Modelled from the spec: the `Gillespie_one_step` kernel — advance one
trajectory from `t0` to `t1`, emitting only the final state (this is what
one `_run` launch computes per thread). -/
def gillespieOneStep (km : KernelModel) (fuel : Nat) (rng : List ℚ)
    (y : List Int) (t0 t1 : ℚ) : List Int × ℚ × List ℚ :=
  ssaAdvance km fuel rng y t0 t1

def allStepsGo (km : KernelModel) (fuel : Nat) :
    List Int → ℚ → List ℚ → List ℚ → List (List Int)
  | _, _, _, [] => []
  | y, t, rng, tp :: rest =>
    let res := ssaAdvance km fuel rng y t tp
    res.1 :: allStepsGo km fuel res.1 res.2.1 res.2.2 rest

/-- Modelled from the spec: the `Gillespie_all_steps` kernel — starting
at the first grid time, record the trajectory's state at every entry of
the time grid (this is what one `_run_all` launch computes per thread). -/
def gillespieAllSteps (km : KernelModel) (fuel : Nat) (rng : List ℚ)
    (y : List Int) (grid : List ℚ) : List (List Int) :=
  match grid with
  | [] => []
  | t0 :: _ => allStepsGo km fuel y t0 rng grid

lemma ssaAdvance_self (km : KernelModel) (fuel : Nat) (rng : List ℚ)
    (y : List Int) (t : ℚ) : ssaAdvance km fuel rng y t t = (y, t, rng) := by
  cases fuel with
  | zero => rfl
  | succ fuel => simp [ssaAdvance, lt_irrefl]

/-- C9: for the same random seed (modelled as the same uniform-draw
stream) and identical inputs with a time grid holding a single reporting
interval `[t0, t1]`, all-steps mode (`run_one_step`, one
`Gillespie_all_steps` launch over the grid) and step mode (`run`, one
`Gillespie_one_step` launch for the interval) yield identical final-state
species counts for every trajectory: the last state the all-steps kernel
records equals the single-step kernel's final state.  Each trajectory has
its own draw stream, so the per-trajectory statement quantified over
`rng` covers every thread of a launch. -/
theorem c9_single_interval_mode_equivalence (km : KernelModel) (fuel : Nat)
    (rng : List ℚ) (y : List Int) (t0 t1 : ℚ) :
    (gillespieAllSteps km fuel rng y [t0, t1]).getLast?
      = some (gillespieOneStep km fuel rng y t0 t1).1 := by
  show (allStepsGo km fuel y t0 rng [t0, t1]).getLast? = _
  simp only [allStepsGo, ssaAdvance_self]
  rfl

end PysbGpuSsa
